import Mathlib

/-!
Verification model of the gbt-be-template backend.

This file gives a shallow embedding, in Lean 4, of the authentication and
user-management core of the repository: the user data model
(internal/models/user.go), the account store semantics
(internal/repository/user_repository.go over the documented store contract),
the user service (internal/services/user_service.go), the authentication
service (internal/services/auth_service.go), the JWT middleware
(pkg/middleware/auth.go, shipped in pkg/middleware alongside logging.go),
the response helpers (pkg/utils/response.go) and the user handlers
(internal/handlers/user_handler.go).

Conventions of the embedding:
- Go strings are Lean String values; strings.HasPrefix and strings.TrimPrefix
  are modelled through the underlying character list of the string, which is
  the same semantics.
- Go errors are the error message strings produced by errors.New and
  fmt.Errorf with the %w verb, so an operation that can fail returns
  Except String.
- The relational store is modelled as an explicit Store state holding the
  list of user rows plus fault-injection flags; a flag set to true makes the
  corresponding repository operation return the store error message, which
  models an internal database failure for that call. Stateful operations
  thread the Store value explicitly.
- Store-managed creation and update timestamps are not modelled; the list
  order of Store.users stands in for the created-at ordering used by List.
- bcrypt and the token signing secret live behind explicit parameters so
  that every definition stays executable.
-/

/-- A user row, translated from the User struct of internal/models/user.go.
The gorm soft-delete marker DeletedAt is modelled by the boolean field
deleted; store-managed CreatedAt and UpdatedAt are omitted (no claim
depends on them). -/
structure User where
  id : Nat
  email : String
  username : String
  password : String
  firstName : String
  lastName : String
  isActive : Bool
  isAdmin : Bool
  lastLogin : Option Int
  deleted : Bool
deriving Repr, DecidableEq

/-- The outward representation of a user, translated from UserResponse of
internal/models/user.go: every field of User except the password digest and
the soft-delete marker (timestamps omitted as in User). -/
structure UserResponse where
  id : Nat
  email : String
  username : String
  firstName : String
  lastName : String
  isActive : Bool
  isAdmin : Bool
  lastLogin : Option Int
deriving Repr, DecidableEq

/-- User.ToResponse from internal/models/user.go. -/
def User.toResponse (u : User) : UserResponse :=
  { id := u.id
    email := u.email
    username := u.username
    firstName := u.firstName
    lastName := u.lastName
    isActive := u.isActive
    isAdmin := u.isAdmin
    lastLogin := u.lastLogin }

/-- UserCreateRequest from internal/models/user.go. The struct carries no
admin and no active field; this is load-bearing for the create-path
invariants. -/
structure UserCreateRequest where
  email : String
  username : String
  password : String
  firstName : String
  lastName : String
deriving Repr, DecidableEq

/-- UserUpdateRequest from internal/models/user.go: every field is a
pointer in Go, hence an Option here; none models an absent field. -/
structure UserUpdateRequest where
  email : Option String
  username : Option String
  firstName : Option String
  lastName : Option String
  isActive : Option Bool
deriving Repr, DecidableEq

/-- UserLoginRequest from internal/models/user.go. -/
structure UserLoginRequest where
  email : String
  password : String
deriving Repr, DecidableEq

/-- The state of the account store, modelling the users table reached
through internal/repository/user_repository.go. The fail* flags inject an
internal store failure into the corresponding repository operation, with
errMsg as the database error text; clock models time.Now() for the
last-login stamp. -/
structure Store where
  users : List User
  nextId : Nat
  clock : Int
  errMsg : String
  failExistsByEmail : Bool
  failExistsByUsername : Bool
  failGetByID : Bool
  failGetByEmail : Bool
  failCreate : Bool
  failUpdate : Bool
  failList : Bool
  failCount : Bool
  failUpdateLastLogin : Bool
deriving Repr, DecidableEq

/-- The gorm soft-delete scope: every read of the users table excludes rows
whose deletion marker is set. -/
def Store.live (s : Store) : List User :=
  s.users.filter (fun u => !u.deleted)

namespace UserRepository

/-- userRepository.GetByID from internal/repository/user_repository.go:
First(&user, id) under the soft-delete scope; gorm.ErrRecordNotFound is
mapped to (nil, nil), so absence is Except.ok none, and any other database
error is returned as a store failure. -/
def GetByID (s : Store) (id : Nat) : Except String (Option User) :=
  if s.failGetByID then .error s.errMsg
  else .ok (s.live.find? (fun u => u.id = id))

/-- userRepository.GetByEmail from internal/repository/user_repository.go. -/
def GetByEmail (s : Store) (email : String) : Except String (Option User) :=
  if s.failGetByEmail then .error s.errMsg
  else .ok (s.live.find? (fun u => u.email = email))

/-- userRepository.ExistsByEmail from
internal/repository/user_repository.go: count of live rows with the given
email, compared to zero. -/
def ExistsByEmail (s : Store) (email : String) : Except String Bool :=
  if s.failExistsByEmail then .error s.errMsg
  else .ok (s.live.any (fun u => u.email = email))

/-- userRepository.ExistsByUsername from
internal/repository/user_repository.go. -/
def ExistsByUsername (s : Store) (username : String) : Except String Bool :=
  if s.failExistsByUsername then .error s.errMsg
  else .ok (s.live.any (fun u => u.username = username))

/-- userRepository.Create from internal/repository/user_repository.go: the
database assigns the primary key (mirrored by nextId) and appends the row;
the created row is returned because Go mutates the passed user in place. -/
def Create (s : Store) (u : User) : Except String (User × Store) :=
  if s.failCreate then .error s.errMsg
  else
    let created := { u with id := s.nextId }
    .ok (created, { s with users := s.users ++ [created], nextId := s.nextId + 1 })

/-- userRepository.Update from internal/repository/user_repository.go:
gorm Save replaces the row with the matching primary key. -/
def Update (s : Store) (u : User) : Except String Store :=
  if s.failUpdate then .error s.errMsg
  else .ok { s with users := s.users.map (fun v => if v.id = u.id then u else v) }

/-- userRepository.List from internal/repository/user_repository.go: the
limit is applied only when positive and the offset only when positive,
matching the two guards in the Go code; the live list order stands in for
the created-at ordering. -/
def List (s : Store) (limit offset : Int) : Except String (List User) :=
  if s.failList then .error s.errMsg
  else
    let base := s.live
    let afterOffset := if offset > 0 then base.drop offset.toNat else base
    .ok (if limit > 0 then afterOffset.take limit.toNat else afterOffset)

/-- userRepository.Count from internal/repository/user_repository.go:
number of live rows. -/
def Count (s : Store) : Except String Int :=
  if s.failCount then .error s.errMsg
  else .ok (s.live.length : Int)

/-- userRepository.UpdateLastLogin from
internal/repository/user_repository.go: stamps time.Now() (the store
clock) on the row with the given id. -/
def UpdateLastLogin (s : Store) (userID : Nat) : Except String Store :=
  if s.failUpdateLastLogin then .error s.errMsg
  else
    let stamped := s.users.map (fun v => if v.id = userID then { v with lastLogin := some s.clock } else v)
    .ok { s with users := stamped }

end UserRepository

/-! ## Token codec -/

/-- The claims payload of a token, translated from the JWT claims carried by
the codec in pkg/utils (user id, email, admin flag, expiry instant). -/
structure JWTClaims where
  userID : Nat
  email : String
  isAdmin : Bool
  expiresAt : Int
deriving Repr, DecidableEq

/-- A signed token: a claims payload together with its signature. -/
structure SignedToken where
  claims : JWTClaims
  sig : String
deriving Repr, DecidableEq

/-- Modelled from the spec: the symmetric MAC of the Token Codec
(pkg/utils/jwt.go is not among the sources; only its callers are). The
signature is a deterministic function of the secret and the claims, so a
signature verifies exactly when it was produced over the same claims with
the same secret. -/
def macSign (secret : String) (c : JWTClaims) : String :=
  secret ++ "|" ++ toString c.userID ++ "|" ++ c.email ++ "|" ++
    (if c.isAdmin then "1" else "0") ++ "|" ++ toString c.expiresAt

/-- Modelled from the spec: utils.GenerateJWT of the missing Token Codec.
It builds Claims with expiry = now + ttl and signs them with the secret. -/
def GenerateJWT (userID : Nat) (email : String) (isAdmin : Bool)
    (secret : String) (now ttl : Int) : SignedToken :=
  let c : JWTClaims := { userID := userID, email := email, isAdmin := isAdmin, expiresAt := now + ttl }
  { claims := c, sig := macSign secret c }

/-- Modelled from the spec: utils.ValidateJWT of the missing Token Codec.
It rejects a signature that does not match the secret and rejects an
expired token (now past the expiry instant). -/
def ValidateJWT (t : SignedToken) (secret : String) (now : Int) : Except String JWTClaims :=
  if t.sig ≠ macSign secret t.claims then .error ("signature is invalid")
  else if now > t.claims.expiresAt then .error ("token is expired")
  else .ok t.claims

/-- The JWT secret and expiry, from the JWT section of the configuration
(internal/config). -/
structure JWTConfig where
  secret : String
  expiry : Int
deriving Repr, DecidableEq

/-! ## Request Gate (pkg/middleware JWT middleware) -/

/-- The identity injected into the request context by the middleware:
claims.UserID, claims.Email and claims.IsAdmin under the context keys
UserIDKey, UserEmailKey and IsAdminKey. -/
structure AuthContext where
  userID : Nat
  userEmail : String
  isAdmin : Bool
deriving Repr, DecidableEq

/-- The outcome of the middleware on one request: either an error response
is written and the chain stops, or the next handler runs with the
identity-bearing context. -/
inductive GateResult where
  | reject (status : Nat) (message : String)
  | proceed (ctx : AuthContext)
deriving Repr, DecidableEq

/-- JWTAuth from pkg/middleware: the mandatory-auth request gate.
The validate parameter is utils.ValidateJWT applied to the configured
secret, abstracted as the middleware treats it as a black box. An absent
Authorization header reads as the empty string through r.Header.Get.
strings.HasPrefix with the ASCII prefix is rendered as take 7 and
strings.TrimPrefix as drop 7. -/
def JWTAuth (validate : String → Except String JWTClaims) (authHeader : String) : GateResult :=
  if authHeader = "" then .reject 401 ("Authorization header required")
  else if ¬(authHeader.take 7 = "Bearer ") then .reject 401 ("Invalid authorization header format")
  else
    let token := authHeader.drop 7
    if token = "" then .reject 401 ("Token required")
    else
      match validate token with
      | .error _ => .reject 401 ("Invalid token")
      | .ok claims => .proceed { userID := claims.userID, userEmail := claims.email, isAdmin := claims.isAdmin }

/-! ## Authentication service (internal/services/auth_service.go) -/

namespace authService

/-- authService.GenerateToken from internal/services/auth_service.go:
delegates to utils.GenerateJWT with the configured secret and expiry. The
modelled codec cannot fail, so the error-wrapping branch of the Go code is
unreachable here. -/
def GenerateToken (cfg : JWTConfig) (now : Int) (userID : Nat) (email : String) (isAdmin : Bool) : SignedToken :=
  GenerateJWT userID email isAdmin cfg.secret now cfg.expiry

/-- authService.ValidateToken from internal/services/auth_service.go:
parse the token, then re-fetch the account by id from the store, failing
when the account is missing or inactive. -/
def ValidateToken (cfg : JWTConfig) (now : Int) (s : Store) (t : SignedToken) : Except String User :=
  match ValidateJWT t cfg.secret now with
  | .error e => .error ("invalid token: " ++ e)
  | .ok claims =>
    match UserRepository.GetByID s claims.userID with
    | .error e => .error ("failed to validate user: " ++ e)
    | .ok none => .error ("user not found")
    | .ok (some user) =>
      if !user.isActive then .error ("user account is deactivated")
      else .ok user

end authService

/-! ## User service (internal/services/user_service.go) -/

namespace userService

/-- userService.Create: check email existence, then username existence,
hash the password, build the user with IsActive true and IsAdmin false, and
persist it. The hash parameter is bcrypt.GenerateFromPassword. Stateful
operations return the final store; every failure path leaves the store as
it was because the Go code returns before any write. -/
def Create (hash : String → Except String String) (s : Store)
    (req : UserCreateRequest) : Except String UserResponse × Store :=
  match UserRepository.ExistsByEmail s req.email with
  | .error e => (.error ("failed to check user existence: " ++ e), s)
  | .ok true => (.error ("user with this email already exists"), s)
  | .ok false =>
    match UserRepository.ExistsByUsername s req.username with
    | .error e => (.error ("failed to check username availability: " ++ e), s)
    | .ok true => (.error ("username is already taken"), s)
    | .ok false =>
      match hash req.password with
      | .error e => (.error ("failed to hash password: " ++ e), s)
      | .ok hashedPassword =>
        let user : User :=
          { id := 0
            email := req.email
            username := req.username
            password := hashedPassword
            firstName := req.firstName
            lastName := req.lastName
            isActive := true
            isAdmin := false
            lastLogin := none
            deleted := false }
        match UserRepository.Create s user with
        | .error e => (.error ("failed to create user: " ++ e), s)
        | .ok (created, s1) => (.ok created.toResponse, s1)

/-- userService.GetByID: fetch by id; a store failure is wrapped, absence
becomes the user-not-found error. -/
def GetByID (s : Store) (id : Nat) : Except String UserResponse :=
  match UserRepository.GetByID s id with
  | .error e => .error ("failed to get user: " ++ e)
  | .ok none => .error ("user not found")
  | .ok (some user) => .ok user.toResponse

/-- userService.Update: fetch the existing user, then apply each provided
field in source order (email with a uniqueness re-check only when the new
value differs, username likewise, then first name, last name, active
flag), and save the merged user. -/
def Update (s : Store) (id : Nat) (req : UserUpdateRequest) :
    Except String UserResponse × Store :=
  match UserRepository.GetByID s id with
  | .error e => (.error ("failed to get user: " ++ e), s)
  | .ok none => (.error ("user not found"), s)
  | .ok (some user0) =>
    let emailStep : Except String User :=
      match req.email with
      | some e =>
        if e ≠ user0.email then
          match UserRepository.ExistsByEmail s e with
          | .error er => .error ("failed to check email availability: " ++ er)
          | .ok true => .error ("email is already taken")
          | .ok false => .ok { user0 with email := e }
        else .ok user0
      | none => .ok user0
    match emailStep with
    | .error e => (.error e, s)
    | .ok user1 =>
      let usernameStep : Except String User :=
        match req.username with
        | some un =>
          if un ≠ user1.username then
            match UserRepository.ExistsByUsername s un with
            | .error er => .error ("failed to check username availability: " ++ er)
            | .ok true => .error ("username is already taken")
            | .ok false => .ok { user1 with username := un }
          else .ok user1
        | none => .ok user1
      match usernameStep with
      | .error e => (.error e, s)
      | .ok user2 =>
        let user3 := match req.firstName with
          | some f => { user2 with firstName := f }
          | none => user2
        let user4 := match req.lastName with
          | some l => { user3 with lastName := l }
          | none => user3
        let user5 := match req.isActive with
          | some a => { user4 with isActive := a }
          | none => user4
        match UserRepository.Update s user5 with
        | .error e => (.error ("failed to update user: " ++ e), s)
        | .ok s1 => (.ok user5.toResponse, s1)

/-- userService.List: offset is computed as (page - 1) * limit, then the
repository is queried with that limit and offset and the total count is
fetched for the pagination metadata. -/
def List (s : Store) (page limit : Int) :
    Except String (List UserResponse × Int) :=
  let offset := (page - 1) * limit
  match UserRepository.List s limit offset with
  | .error e => .error ("failed to list users: " ++ e)
  | .ok users =>
    match UserRepository.Count s with
    | .error e => .error ("failed to count users: " ++ e)
    | .ok total => .ok (users.map User.toResponse, total)

/-- userService.Login: fetch by email (absence is the invalid-credentials
error), reject an inactive account, verify the password with
bcrypt.CompareHashAndPassword (the compare parameter, digest first),
generate the token, and stamp the last login; a failed stamp is logged and
swallowed, so the login still succeeds and the store keeps its pre-stamp
state. -/
def Login (compare : String → String → Bool)
    (genToken : Nat → String → Bool → Except String String)
    (s : Store) (req : UserLoginRequest) :
    Except String (String × UserResponse) × Store :=
  match UserRepository.GetByEmail s req.email with
  | .error e => (.error ("failed to authenticate: " ++ e), s)
  | .ok none => (.error ("invalid credentials"), s)
  | .ok (some user) =>
    if !user.isActive then (.error ("account is deactivated"), s)
    else if !(compare user.password req.password) then (.error ("invalid credentials"), s)
    else
      match genToken user.id user.email user.isAdmin with
      | .error e => (.error ("failed to generate token: " ++ e), s)
      | .ok token =>
        match UserRepository.UpdateLastLogin s user.id with
        | .error _ => (.ok (token, user.toResponse), s)
        | .ok s1 => (.ok (token, user.toResponse), s1)

end userService

/-! ## Response helpers (pkg/utils/response.go) and handlers
(internal/handlers/user_handler.go) -/

/-- PaginationResponse from pkg/utils/response.go; the data payload is the
list of user representations produced by the list handler. -/
structure PaginationResponse where
  data : List UserResponse
  total : Int
  page : Int
  limit : Int
  totalPages : Int
deriving Repr, DecidableEq

/-- The data payload of an API response, specialised to the shapes the user
handlers produce (Go uses interface values). -/
inductive RespData where
  | empty
  | user (u : UserResponse)
  | paginated (p : PaginationResponse)
  | login (token : String) (u : UserResponse)
deriving Repr, DecidableEq

/-- An HTTP response as written by the helpers of pkg/utils/response.go:
the status code plus the APIResponse envelope fields success, message,
data and error. -/
structure HTTPResponse where
  status : Nat
  success : Bool
  message : String
  data : RespData
  errorDetail : Option String
deriving Repr, DecidableEq

/-- WriteErrorResponse from pkg/utils/response.go. -/
def WriteErrorResponse (status : Nat) (message : String) (errDetail : Option String) : HTTPResponse :=
  { status := status, success := false, message := message, data := .empty, errorDetail := errDetail }

/-- WriteSuccessResponse from pkg/utils/response.go. -/
def WriteSuccessResponse (status : Nat) (message : String) (d : RespData) : HTTPResponse :=
  { status := status, success := true, message := message, data := d, errorDetail := none }

/-- WritePaginatedResponse from pkg/utils/response.go: totalPages is
(total + limit - 1) / limit in integer division. Go division truncates
toward zero; the handler only ever passes a nonnegative total and a
positive limit, where truncation and the Lean Int division coincide. -/
def WritePaginatedResponse (status : Nat) (message : String)
    (data : List UserResponse) (total : Int) (page limit : Int) : HTTPResponse :=
  let totalPages := (total + limit - 1) / limit
  let pagination : PaginationResponse :=
    { data := data, total := total, page := page, limit := limit, totalPages := totalPages }
  { status := status, success := true, message := message, data := .paginated pagination, errorDetail := none }

namespace UserHandler

/-- UserHandler.Create from internal/handlers/user_handler.go: decode the
body (none models malformed JSON), validate it (the validate parameter is
the go-playground struct validator; some e is a validation failure with
text e), then call the service; a service error of any kind is written as
status 400 with the error text as the message. -/
def Create (validate : UserCreateRequest → Option String)
    (hash : String → Except String String)
    (s : Store) (body : Option UserCreateRequest) : HTTPResponse × Store :=
  match body with
  | none => (WriteErrorResponse 400 ("Invalid JSON") none, s)
  | some req =>
    match validate req with
    | some verr => (WriteErrorResponse 400 ("Validation failed") (some verr), s)
    | none =>
      match userService.Create hash s req with
      | (.error e, s1) => (WriteErrorResponse 400 e none, s1)
      | (.ok user, s1) => (WriteSuccessResponse 201 ("User created successfully") (.user user), s1)

/-- UserHandler.GetByID from internal/handlers/user_handler.go: idParam is
the result of strconv.ParseUint on the path parameter (none models a parse
failure); a service error of any kind is written as status 404 with the
error text as the message. -/
def GetByID (s : Store) (idParam : Option Nat) : HTTPResponse :=
  match idParam with
  | none => WriteErrorResponse 400 ("Invalid user ID") none
  | some id =>
    match userService.GetByID s id with
    | .error e => WriteErrorResponse 404 e none
    | .ok user => WriteSuccessResponse 200 ("User retrieved successfully") (.user user)

/-- UserHandler.List from internal/handlers/user_handler.go: the page
defaults to 1 and is overridden by a parsed positive value; the limit
defaults to 10 and is overridden by a parsed value in (0, 100]; a service
failure is written as status 500 with a fixed generic message and no error
detail. -/
def List (s : Store) (pageParam limitParam : Option Int) : HTTPResponse :=
  let page : Int := match pageParam with
    | some p => if p > 0 then p else 1
    | none => 1
  let limit : Int := match limitParam with
    | some l => if l > 0 ∧ l ≤ 100 then l else 10
    | none => 10
  match userService.List s page limit with
  | .error _ => WriteErrorResponse 500 ("Failed to retrieve users") none
  | .ok (users, total) =>
    WritePaginatedResponse 200 ("Users retrieved successfully") users total page limit

end UserHandler

/-! ## Concrete fixtures used by witnesses and counterexamples -/

/-- A concrete stand-in for bcrypt.GenerateFromPassword. -/
def hash0 : String → Except String String := fun p => .ok ("hashed:" ++ p)

/-- A concrete stand-in for bcrypt.CompareHashAndPassword (digest first),
true exactly when the digest was produced by hash0 on the plaintext. -/
def compare0 : String → String → Bool := fun digest plain => digest = "hashed:" ++ plain

/-- A request validator that accepts every body. -/
def vOK : UserCreateRequest → Option String := fun _ => none

/-- A token generator that always succeeds with a fixed token string. -/
def genTok0 : Nat → String → Bool → Except String String := fun _ _ _ => .ok ("token123")

/-- An active non-admin account. -/
def aliceActive : User :=
  { id := 1, email := "alice@example.com", username := "alice", password := "hashed:pw1"
    firstName := "Alice", lastName := "Smith", isActive := true, isAdmin := false
    lastLogin := none, deleted := false }

/-- The same account with the active flag cleared. -/
def aliceInactive : User := { aliceActive with isActive := false }

/-- An empty, fault-free store. -/
def baseStore : Store :=
  { users := [], nextId := 1, clock := 0, errMsg := "database error"
    failExistsByEmail := false, failExistsByUsername := false, failGetByID := false
    failGetByEmail := false, failCreate := false, failUpdate := false
    failList := false, failCount := false, failUpdateLastLogin := false }

/-- A store holding the active account. -/
def sAlice : Store := { baseStore with users := [aliceActive], nextId := 2 }

/-- A store holding the deactivated account. -/
def sAliceInactive : Store := { baseStore with users := [aliceInactive], nextId := 2 }

/-- A concrete JWT configuration. -/
def cfg0 : JWTConfig := { secret := "secret", expiry := 3600 }

/-- A token signed with the configured secret at time 0 for account 1. -/
def token1 : SignedToken := GenerateJWT 1 "alice@example.com" false "secret" 0 3600

/-- The codec as the middleware sees it: the compact string form of token1
validates to the result of the genuine signature check of the modelled
codec; every other string is rejected. -/
def validate0 : String → Except String JWTClaims :=
  fun t => if t = "tok1" then ValidateJWT token1 "secret" 0 else .error ("signature is invalid")

/-! ## C2: the mandatory-auth case split of the Request Gate -/

/-- C2: for every request to a mandatory-auth route, JWTAuth is the
exhaustive case split of the claim: empty (that is, missing) Authorization
header gives 401, a header without the Bearer prefix gives 401, an empty
token after the prefix strip gives 401, a failed token validation gives 401
with a message that does not distinguish the failure cause, and otherwise
the claims user id, email and admin flag are injected into the context and
the next handler runs. -/
theorem jwtAuth_mandatory_case_split (validate : String → Except String JWTClaims) (h : String) :
    (h = "" → JWTAuth validate h = .reject 401 ("Authorization header required")) ∧
    (h ≠ "" → h.take 7 ≠ "Bearer " → JWTAuth validate h = .reject 401 ("Invalid authorization header format")) ∧
    (h.take 7 = "Bearer " → h.drop 7 = "" → JWTAuth validate h = .reject 401 ("Token required")) ∧
    (∀ e, h.take 7 = "Bearer " → h.drop 7 ≠ "" → validate (h.drop 7) = .error e →
      JWTAuth validate h = .reject 401 ("Invalid token")) ∧
    (∀ c, h.take 7 = "Bearer " → h.drop 7 ≠ "" → validate (h.drop 7) = .ok c →
      JWTAuth validate h = .proceed { userID := c.userID, userEmail := c.email, isAdmin := c.isAdmin }) := by
  have hne : h.take 7 = "Bearer " → h ≠ "" := by
    intro ht he
    subst he
    exact absurd ht (by decide)
  refine ⟨?_, ?_, ?_, ?_, ?_⟩
  · intro h1
    simp [JWTAuth, h1]
  · intro h1 h2
    simp [JWTAuth, h1, h2]
  · intro h1 h2
    simp [JWTAuth, hne h1, h1, h2]
  · intro e h1 h2 h3
    simp [JWTAuth, hne h1, h1, h2, h3]
  · intro c h1 h2 h3
    simp [JWTAuth, hne h1, h1, h2, h3]

/-- Closed instances of the case split: one request per branch, at concrete
headers and the concrete codec validate0. -/
theorem jwtAuth_mandatory_case_split_witness :
    JWTAuth validate0 "" = .reject 401 ("Authorization header required") ∧
    JWTAuth validate0 "Basic abc" = .reject 401 ("Invalid authorization header format") ∧
    JWTAuth validate0 "Bearer " = .reject 401 ("Token required") ∧
    JWTAuth validate0 "Bearer bad" = .reject 401 ("Invalid token") ∧
    JWTAuth validate0 "Bearer tok1" =
      .proceed { userID := 1, userEmail := "alice@example.com", isAdmin := false } := by
  refine ⟨?_, ?_, ?_, ?_, ?_⟩
  · exact (jwtAuth_mandatory_case_split validate0 "").1 rfl
  · exact (jwtAuth_mandatory_case_split validate0 "Basic abc").2.1 (by decide) (by decide)
  · exact (jwtAuth_mandatory_case_split validate0 "Bearer ").2.2.1 (by decide) (by decide)
  · exact (jwtAuth_mandatory_case_split validate0 "Bearer bad").2.2.2.1
      ("signature is invalid") (by decide) (by decide) rfl
  · exact (jwtAuth_mandatory_case_split validate0 "Bearer tok1").2.2.2.2
      { userID := 1, email := "alice@example.com", isAdmin := false, expiresAt := 3600 }
      (by decide) (by decide) rfl

/-! ## C1: does the Request Gate re-validate account status from the store? -/

/-- C1 counterexample: the wired Request Gate (JWTAuth) never consults the
store. The token string tok1 validates through the genuine signature check
of the codec (second conjunct), the store holds account 1 with the active
flag false (third and fourth conjuncts), yet the gate lets the request
proceed with that identity (first conjunct). So a request bearing a token
whose cryptographic signature is valid but whose account is deactivated IS
allowed past the Request Gate, refuting the claim at this concrete input. -/
theorem request_gate_no_store_revalidation_counterexample :
    JWTAuth validate0 "Bearer tok1" =
      .proceed { userID := 1, userEmail := "alice@example.com", isAdmin := false } ∧
    ValidateJWT token1 "secret" 0 = .ok token1.claims ∧
    UserRepository.GetByID sAliceInactive 1 = .ok (some aliceInactive) ∧
    aliceInactive.isActive = false := by
  refine ⟨rfl, rfl, rfl, by decide⟩

/-- C1 amended: the per-request store re-validation lives in
authService.ValidateToken, not in the wired Request Gate. Whenever the
token parses (its signature is valid and it is unexpired), ValidateToken
re-fetches the account by id from the store and fails when the account has
been deleted (absent from live rows) or has its active flag false, so
deactivation and deletion take effect immediately for every caller that
goes through the Authentication Service. -/
theorem validateToken_enforces_account_status (cfg : JWTConfig) (now : Int)
    (s : Store) (t : SignedToken) (c : JWTClaims)
    (hparse : ValidateJWT t cfg.secret now = .ok c) :
    (UserRepository.GetByID s c.userID = .ok none →
      authService.ValidateToken cfg now s t = .error ("user not found")) ∧
    (∀ u, UserRepository.GetByID s c.userID = .ok (some u) → u.isActive = false →
      authService.ValidateToken cfg now s t = .error ("user account is deactivated")) := by
  constructor
  · intro hget
    simp [authService.ValidateToken, hparse, hget]
  · intro u hget hact
    simp [authService.ValidateToken, hparse, hget, hact]

/-- Closed instance: the deactivated account of sAliceInactive makes
ValidateToken fail on token1 even though the signature is still valid. -/
theorem validateToken_enforces_account_status_witness :
    authService.ValidateToken cfg0 0 sAliceInactive token1 = .error ("user account is deactivated") := by
  exact (validateToken_enforces_account_status cfg0 0 sAliceInactive token1 token1.claims rfl).2
    aliceInactive rfl (by decide)

/-! ## C3: enumeration resistance of Login -/

/-- C3: a login whose email matches no account and a login against an
existing active account with a wrong password fail with the identical
error message, invalid credentials; a login against a deactivated account
fails with the distinct account-is-deactivated message (checked before the
password, so for any password). -/
theorem login_enumeration_resistance (compare : String → String → Bool)
    (genToken : Nat → String → Bool → Except String String)
    (s : Store) (req : UserLoginRequest) :
    (UserRepository.GetByEmail s req.email = .ok none →
      (userService.Login compare genToken s req).1 = .error ("invalid credentials")) ∧
    (∀ u, UserRepository.GetByEmail s req.email = .ok (some u) → u.isActive = true →
      compare u.password req.password = false →
      (userService.Login compare genToken s req).1 = .error ("invalid credentials")) ∧
    (∀ u, UserRepository.GetByEmail s req.email = .ok (some u) → u.isActive = false →
      (userService.Login compare genToken s req).1 = .error ("account is deactivated")) := by
  refine ⟨?_, ?_, ?_⟩
  · intro hget
    simp [userService.Login, hget]
  · intro u hget hact hcmp
    simp [userService.Login, hget, hact, hcmp]
  · intro u hget hact
    simp [userService.Login, hget, hact]

/-- Closed instances: a nonexistent email and a wrong password on the
active account of sAlice produce the same message, and the deactivated
account of sAliceInactive produces the distinct one. -/
theorem login_enumeration_resistance_witness :
    (userService.Login compare0 genTok0 sAlice { email := "ghost@example.com", password := "pw1" }).1
      = .error ("invalid credentials") ∧
    (userService.Login compare0 genTok0 sAlice { email := "alice@example.com", password := "wrong" }).1
      = .error ("invalid credentials") ∧
    (userService.Login compare0 genTok0 sAliceInactive { email := "alice@example.com", password := "pw1" }).1
      = .error ("account is deactivated") := by
  refine ⟨?_, ?_, ?_⟩
  · exact (login_enumeration_resistance compare0 genTok0 sAlice
      { email := "ghost@example.com", password := "pw1" }).1 rfl
  · exact (login_enumeration_resistance compare0 genTok0 sAlice
      { email := "alice@example.com", password := "wrong" }).2.1 aliceActive rfl (by decide) (by decide)
  · exact (login_enumeration_resistance compare0 genTok0 sAliceInactive
      { email := "alice@example.com", password := "pw1" }).2.2 aliceInactive rfl (by decide)

/-! ## C4: create persists active non-admin; conflicts persist nothing -/

/-- C4: when neither the email nor the username is taken, Create persists
exactly one new account whose active flag is true and whose admin flag is
false (and answers with its representation); when the email is taken the
operation fails with the email-taken error and the store is unchanged, and
the email check comes first, so this holds whatever the username check
would say; when the email is free but the username is taken it fails with
the username-taken error and the store is unchanged. -/
theorem create_flags_and_conflicts (hash : String → Except String String)
    (s : Store) (req : UserCreateRequest) :
    (∀ d, UserRepository.ExistsByEmail s req.email = .ok false →
      UserRepository.ExistsByUsername s req.username = .ok false →
      hash req.password = .ok d → s.failCreate = false →
      ∃ u, (userService.Create hash s req).2
          = { s with users := s.users ++ [u], nextId := s.nextId + 1 } ∧
        u.isActive = true ∧ u.isAdmin = false ∧
        (userService.Create hash s req).1 = .ok u.toResponse) ∧
    (UserRepository.ExistsByEmail s req.email = .ok true →
      userService.Create hash s req = (.error ("user with this email already exists"), s)) ∧
    (UserRepository.ExistsByEmail s req.email = .ok false →
      UserRepository.ExistsByUsername s req.username = .ok true →
      userService.Create hash s req = (.error ("username is already taken"), s)) := by
  refine ⟨?_, ?_, ?_⟩
  · intro d h1 h2 h3 h4
    refine ⟨{ id := s.nextId, email := req.email, username := req.username, password := d
              firstName := req.firstName, lastName := req.lastName, isActive := true
              isAdmin := false, lastLogin := none, deleted := false }, ?_, rfl, rfl, ?_⟩
    · simp [userService.Create, h1, h2, h3, UserRepository.Create, h4]
    · simp [userService.Create, h1, h2, h3, UserRepository.Create, h4]
  · intro h1
    simp [userService.Create, h1]
  · intro h1 h2
    simp [userService.Create, h1, h2]

/-- Closed instances on sAlice: a fresh registration persists one account
with active true and admin false; reusing the taken email (with a fresh
username) fails with the email-taken error and an unchanged store; a fresh
email with the taken username fails with the username-taken error and an
unchanged store. -/
theorem create_flags_and_conflicts_witness :
    (∃ u, (userService.Create hash0 sAlice
        { email := "bob@example.com", username := "bob", password := "pw2"
          firstName := "Bob", lastName := "Jones" }).2
        = { sAlice with users := sAlice.users ++ [u], nextId := sAlice.nextId + 1 } ∧
      u.isActive = true ∧ u.isAdmin = false ∧
      (userService.Create hash0 sAlice
        { email := "bob@example.com", username := "bob", password := "pw2"
          firstName := "Bob", lastName := "Jones" }).1 = .ok u.toResponse) ∧
    userService.Create hash0 sAlice
        { email := "alice@example.com", username := "bob", password := "pw2"
          firstName := "Bob", lastName := "Jones" }
      = (.error ("user with this email already exists"), sAlice) ∧
    userService.Create hash0 sAlice
        { email := "bob@example.com", username := "alice", password := "pw2"
          firstName := "Bob", lastName := "Jones" }
      = (.error ("username is already taken"), sAlice) := by
  refine ⟨?_, ?_, ?_⟩
  · exact (create_flags_and_conflicts hash0 sAlice
      { email := "bob@example.com", username := "bob", password := "pw2"
        firstName := "Bob", lastName := "Jones" }).1 ("hashed:pw2") rfl rfl rfl rfl
  · exact (create_flags_and_conflicts hash0 sAlice
      { email := "alice@example.com", username := "bob", password := "pw2"
        firstName := "Bob", lastName := "Jones" }).2.1 rfl
  · exact (create_flags_and_conflicts hash0 sAlice
      { email := "bob@example.com", username := "alice", password := "pw2"
        firstName := "Bob", lastName := "Jones" }).2.2 rfl rfl

/-! ## C5: token issue and validate round-trip -/

/-- C5: for an account that the store resolves and whose active flag is
true, issuing a token for its id, email and admin flag and validating that
token at any instant up to its expiry yields a user with the same id and
admin flag that were used at issuance. The Token Codec here is the
spec-modelled GenerateJWT and ValidateJWT. -/
theorem token_issue_parse_roundtrip (cfg : JWTConfig) (now now2 : Int) (s : Store) (u : User)
    (hget : UserRepository.GetByID s u.id = .ok (some u))
    (hactive : u.isActive = true)
    (hexp : now2 ≤ now + cfg.expiry) :
    ∃ v, authService.ValidateToken cfg now2 s
        (authService.GenerateToken cfg now u.id u.email u.isAdmin) = .ok v ∧
      v.id = u.id ∧ v.isAdmin = u.isAdmin := by
  refine ⟨u, ?_, rfl, rfl⟩
  have hexp2 : ¬ (now2 > now + cfg.expiry) := not_lt.mpr hexp
  simp [authService.ValidateToken, authService.GenerateToken, GenerateJWT, ValidateJWT,
    hexp2, hget, hactive]

/-- Closed instance: the active account of sAlice round-trips through
issuance at time 0 and validation at time 100 under cfg0. -/
theorem token_issue_parse_roundtrip_witness :
    ∃ v, authService.ValidateToken cfg0 100 sAlice
        (authService.GenerateToken cfg0 0 aliceActive.id aliceActive.email aliceActive.isAdmin) = .ok v ∧
      v.id = aliceActive.id ∧ v.isAdmin = aliceActive.isAdmin := by
  exact token_issue_parse_roundtrip cfg0 0 100 sAlice aliceActive rfl rfl (by decide)

/-! ## C6: store failures in handler responses -/

/-- A fresh registration body. -/
def reqBob : UserCreateRequest :=
  { email := "bob@example.com", username := "bob", password := "pw2"
    firstName := "Bob", lastName := "Jones" }

/-- sAlice with an injected store failure on the email existence check. -/
def sFailEmailCheck : Store :=
  { sAlice with failExistsByEmail := true, errMsg := "pq: connection refused" }

/-- sAlice with an injected store failure on the list query. -/
def sFailList : Store :=
  { sAlice with failList := true, errMsg := "pq: connection refused" }

/-- sAlice with an injected store failure on the fetch by id. -/
def sFailGet : Store :=
  { sAlice with failGetByID := true, errMsg := "pq: connection refused" }

/-- C6 counterexample: when the store fails with an internal error during
a create request, the create handler responds with status 400, not 500,
and its response message contains the underlying store error detail
(pq: connection refused), refuting the claim at this concrete input. -/
theorem store_error_leak_counterexample :
    (UserHandler.Create vOK hash0 sFailEmailCheck (some reqBob)).1.status = 400 ∧
    ¬ (UserHandler.Create vOK hash0 sFailEmailCheck (some reqBob)).1.status = 500 ∧
    (UserHandler.Create vOK hash0 sFailEmailCheck (some reqBob)).1.message
      = "failed to check user existence: pq: connection refused" := by
  refine ⟨rfl, by decide, rfl⟩

/-- C6 amended: only the list handler maps a store failure to HTTP 500
with a fixed generic message and no error detail (independent of the
store error text); the create handler maps a store failure to 400 and the
get-by-id handler to 404, and both include the underlying store error
detail in the wrapped message of the response. -/
theorem store_error_handler_mapping (s : Store) :
    (∀ pp lp, s.failList = true →
      UserHandler.List s pp lp = WriteErrorResponse 500 ("Failed to retrieve users") none) ∧
    (∀ req validate hash, s.failExistsByEmail = true → validate req = none →
      (UserHandler.Create validate hash s (some req)).1
        = WriteErrorResponse 400 ("failed to check user existence: " ++ s.errMsg) none) ∧
    (∀ id, s.failGetByID = true →
      UserHandler.GetByID s (some id) = WriteErrorResponse 404 ("failed to get user: " ++ s.errMsg) none) := by
  refine ⟨?_, ?_, ?_⟩
  · intro pp lp h
    simp [UserHandler.List, userService.List, UserRepository.List, h]
  · intro req validate hash h hv
    simp [UserHandler.Create, userService.Create, UserRepository.ExistsByEmail, h, hv]
  · intro id h
    simp [UserHandler.GetByID, userService.GetByID, UserRepository.GetByID, h]

/-- Closed instances of the three mappings at the concrete failing
stores. -/
theorem store_error_handler_mapping_witness :
    UserHandler.List sFailList none none = WriteErrorResponse 500 ("Failed to retrieve users") none ∧
    (UserHandler.Create vOK hash0 sFailEmailCheck (some reqBob)).1
      = WriteErrorResponse 400 ("failed to check user existence: pq: connection refused") none ∧
    UserHandler.GetByID sFailGet (some 1)
      = WriteErrorResponse 404 ("failed to get user: pq: connection refused") none := by
  refine ⟨?_, ?_, ?_⟩
  · exact (store_error_handler_mapping sFailList).1 none none rfl
  · exact (store_error_handler_mapping sFailEmailCheck).2.1 reqBob vOK hash0 rfl rfl
  · exact (store_error_handler_mapping sFailGet).2.2 1 rfl

/-! ## C7: partial update semantics -/

/-- A second stored account holding the email of reqBob. -/
def reqBobUser : User :=
  { id := 2, email := "bob@example.com", username := "bob", password := "hashed:pw2"
    firstName := "Bob", lastName := "Jones", isActive := true, isAdmin := false
    lastLogin := none, deleted := false }

/-- C7: on an existing account, absent fields are left untouched — an
update providing only the first name writes back exactly the stored
account with only the first name replaced (email, username, password and
every other field unchanged) and answers with that representation; a
provided email equal to the current one behaves exactly like an absent
email (no uniqueness re-check), and likewise for the username; a provided
email that differs is checked against the new value and a taken email
fails the update with the store unchanged, and likewise for the
username. -/
theorem update_partial_semantics (s : Store) (id : Nat) :
    (∀ u f s1, UserRepository.GetByID s id = .ok (some u) →
      UserRepository.Update s { u with firstName := f } = .ok s1 →
      userService.Update s id
          { email := none, username := none, firstName := some f, lastName := none, isActive := none }
        = (.ok ({ u with firstName := f } : User).toResponse, s1)) ∧
    (∀ u req, UserRepository.GetByID s id = .ok (some u) → req.email = some u.email →
      userService.Update s id req = userService.Update s id { req with email := none }) ∧
    (∀ u req, UserRepository.GetByID s id = .ok (some u) → req.email = none →
      req.username = some u.username →
      userService.Update s id req = userService.Update s id { req with username := none }) ∧
    (∀ u req e, UserRepository.GetByID s id = .ok (some u) → req.email = some e → e ≠ u.email →
      UserRepository.ExistsByEmail s e = .ok true →
      userService.Update s id req = (.error ("email is already taken"), s)) ∧
    (∀ u req un, UserRepository.GetByID s id = .ok (some u) → req.email = none →
      req.username = some un → un ≠ u.username →
      UserRepository.ExistsByUsername s un = .ok true →
      userService.Update s id req = (.error ("username is already taken"), s)) := by
  refine ⟨?_, ?_, ?_, ?_, ?_⟩
  · intro u f s1 hget hupd
    simp [userService.Update, hget, hupd]
  · intro u req hget hre
    simp [userService.Update, hget, hre]
  · intro u req hget hre hru
    simp [userService.Update, hget, hre, hru]
  · intro u req e hget hre hne hex
    simp [userService.Update, hget, hre, hne, hex]
  · intro u req un hget hre hru hne hex
    simp [userService.Update, hget, hre, hru, hne, hex]

/-- Closed instances on sAlice: updating only the first name rewrites the
stored account with only that field changed; passing the current email
explicitly behaves like omitting it; a different, taken email fails with
the store unchanged. -/
theorem update_partial_semantics_witness :
    userService.Update sAlice 1
        { email := none, username := none, firstName := some "Alicia", lastName := none, isActive := none }
      = (.ok ({ aliceActive with firstName := "Alicia" } : User).toResponse,
         { sAlice with users := [{ aliceActive with firstName := "Alicia" }] }) ∧
    userService.Update sAlice 1
        { email := some "alice@example.com", username := none, firstName := none, lastName := none, isActive := none }
      = userService.Update sAlice 1
        { email := none, username := none, firstName := none, lastName := none, isActive := none } ∧
    userService.Update { sAlice with users := [aliceActive, reqBobUser] } 1
        { email := some "bob@example.com", username := none, firstName := none, lastName := none, isActive := none }
      = (.error ("email is already taken"), { sAlice with users := [aliceActive, reqBobUser] }) := by
  refine ⟨?_, ?_, ?_⟩
  · exact (update_partial_semantics sAlice 1).1 aliceActive "Alicia" _ rfl rfl
  · exact (update_partial_semantics sAlice 1).2.1 aliceActive
      { email := some "alice@example.com", username := none, firstName := none, lastName := none, isActive := none }
      rfl rfl
  · exact (update_partial_semantics { sAlice with users := [aliceActive, reqBobUser] } 1).2.2.2.1
      aliceActive
      { email := some "bob@example.com", username := none, firstName := none, lastName := none, isActive := none }
      ("bob@example.com") rfl rfl (by decide) rfl

/-! ## C8: pagination arithmetic -/

/-- Helper: for a positive divisor, the add-divisor-minus-one integer
division computes the rational ceiling. -/
theorem add_sub_one_ediv_eq_ceil (t l : ℤ) (hl : 0 < l) :
    (t + l - 1) / l = ⌈(t : ℚ) / (l : ℚ)⌉ := by
  have hl2 : (0 : ℚ) < (l : ℚ) := by exact_mod_cast hl
  have hmod := Int.ediv_add_emod (t + l - 1) l
  have hnn : 0 ≤ (t + l - 1) % l := Int.emod_nonneg _ (ne_of_gt hl)
  have hlt : (t + l - 1) % l < l := Int.emod_lt_of_pos _ hl
  have fact1 : t ≤ ((t + l - 1) / l) * l := by nlinarith
  have fact2 : (((t + l - 1) / l) - 1) * l < t := by nlinarith
  symm
  rw [Int.ceil_eq_iff]
  constructor
  · rw [show ((((t + l - 1) / l : ℤ) : ℚ)) - 1 = ((((t + l - 1) / l - 1 : ℤ) : ℚ)) by push_cast; ring]
    rw [lt_div_iff₀ hl2]
    exact_mod_cast fact2
  · rw [div_le_iff₀ hl2]
    exact_mod_cast fact1

/-- C8: for page p at least 1 and limit l at least 1, the service queries
the store with offset (p - 1) * l — the returned items are exactly the
live rows from index (p - 1) * l on, at most l of them — together with the
total live count; and the paginated response envelope reports total pages
equal to the rational ceiling of total over limit. -/
theorem list_pagination (s : Store) (page limit : Int) :
    (s.failList = false → s.failCount = false → 1 ≤ page → 1 ≤ limit →
      userService.List s page limit
        = .ok (((s.live.drop ((page - 1) * limit).toNat).take limit.toNat).map User.toResponse,
            (s.live.length : Int))) ∧
    (∀ (st : Nat) (m : String) (d : List UserResponse) (t l : Int), 0 < l →
      WritePaginatedResponse st m d t page l
        = { status := st, success := true, message := m
            data := .paginated { data := d, total := t, page := page, limit := l
                                 totalPages := ⌈(t : ℚ) / (l : ℚ)⌉ }
            errorDetail := none }) := by
  constructor
  · intro hfl hfc hp hl
    have hlim : limit > 0 := by omega
    have hofs : 0 ≤ (page - 1) * limit := mul_nonneg (by omega) (by omega)
    by_cases hpos : (page - 1) * limit > 0
    · simp [userService.List, UserRepository.List, UserRepository.Count, hfl, hfc, hpos, hlim]
    · have h0 : (page - 1) * limit = 0 := le_antisymm (not_lt.mp hpos) hofs
      simp [userService.List, UserRepository.List, UserRepository.Count, hfl, hfc, hpos, h0, hlim]
  · intro st m d t l hl
    simp [WritePaginatedResponse, add_sub_one_ediv_eq_ceil t l hl]

/-- A store row with the given id (the other fields are shared, which the
list path never inspects). -/
def mkUser (i : Nat) : User :=
  { id := i, email := "u@example.com", username := "u", password := "h"
    firstName := "F", lastName := "L", isActive := true, isAdmin := false
    lastLogin := none, deleted := false }

/-- A fault-free store with twelve live rows, ids 1 through 12. -/
def s12 : Store :=
  { baseStore with users := (List.range 12).map (fun i => mkUser (i + 1)), nextId := 13 }

/-- Closed instances: page 2 with limit 10 on twelve rows returns exactly
the rows at offset 10 (ids 11 and 12) with total 12, and a paginated
envelope with total 25 and limit 10 reports 3 total pages. -/
theorem list_pagination_witness :
    userService.List s12 2 10 = .ok ([(mkUser 11).toResponse, (mkUser 12).toResponse], 12) ∧
    WritePaginatedResponse 200 ("Users retrieved successfully") [] 25 2 10
      = { status := 200, success := true, message := "Users retrieved successfully"
          data := .paginated { data := [], total := 25, page := 2, limit := 10, totalPages := 3 }
          errorDetail := none } := by
  constructor
  · exact (list_pagination s12 2 10).1 rfl rfl (by norm_num) (by norm_num)
  · have h := (list_pagination baseStore 2 10).2 200 ("Users retrieved successfully") [] 25 10 (by norm_num)
    rw [h]
    have hc : ⌈((25 : ℤ) : ℚ) / ((10 : ℤ) : ℚ)⌉ = 3 := by
      rw [Int.ceil_eq_iff]
      norm_num
    rw [hc]

/-! ## C9: a failed last-login stamp does not fail the login -/

/-- C9: on a login with correct credentials against an active account,
when the store fails the last-login update, the operation still returns
the issued token and the user representation (the stamping error is only
logged), leaving the store in its pre-stamp state. -/
theorem login_swallows_lastlogin_failure (compare : String → String → Bool)
    (genToken : Nat → String → Bool → Except String String)
    (s : Store) (req : UserLoginRequest) (u : User) (token : String)
    (hget : UserRepository.GetByEmail s req.email = .ok (some u))
    (hact : u.isActive = true)
    (hcmp : compare u.password req.password = true)
    (htok : genToken u.id u.email u.isAdmin = .ok token)
    (hfail : s.failUpdateLastLogin = true) :
    userService.Login compare genToken s req = (.ok (token, u.toResponse), s) := by
  simp [userService.Login, hget, hact, hcmp, htok, UserRepository.UpdateLastLogin, hfail]

/-- Closed instance: the login still succeeds on a store whose last-login
update fails. -/
theorem login_swallows_lastlogin_failure_witness :
    userService.Login compare0 genTok0
        { sAlice with failUpdateLastLogin := true }
        { email := "alice@example.com", password := "pw1" }
      = (.ok ("token123", aliceActive.toResponse), { sAlice with failUpdateLastLogin := true }) := by
  exact login_swallows_lastlogin_failure compare0 genTok0
    { sAlice with failUpdateLastLogin := true }
    { email := "alice@example.com", password := "pw1" }
    aliceActive ("token123") rfl rfl (by decide) rfl rfl

/-! ## C10: no HTTP create path can produce an admin account -/

/-- Helper: every row added to the store by the create service has the
active flag true and the admin flag false — the service builds the row
itself and UserCreateRequest carries no admin or active field to copy. -/
theorem create_service_growth (hash : String → Except String String)
    (s : Store) (req : UserCreateRequest) :
    ∀ u, u ∈ (userService.Create hash s req).2.users →
      u ∈ s.users ∨ (u.isAdmin = false ∧ u.isActive = true) := by
  intro u hu
  unfold userService.Create at hu
  rcases h1 : UserRepository.ExistsByEmail s req.email with e1 | b1
  · simp only [h1] at hu
    exact .inl hu
  · simp only [h1] at hu
    cases b1 with
    | true => exact .inl hu
    | false =>
      rcases h2 : UserRepository.ExistsByUsername s req.username with e2 | b2
      · simp only [h2] at hu
        exact .inl hu
      · simp only [h2] at hu
        cases b2 with
        | true => exact .inl hu
        | false =>
          rcases h3 : hash req.password with e3 | d
          · simp only [h3] at hu
            exact .inl hu
          · simp only [h3] at hu
            by_cases hf : s.failCreate
            · simp [UserRepository.Create, hf] at hu
              exact .inl hu
            · simp [UserRepository.Create, hf] at hu
              rcases hu with h | h
              · exact .inl h
              · subst h
                exact .inr ⟨rfl, rfl⟩

/-- C10: every account present after any run of the HTTP create handler —
the one handler wired to both POST /auth/register and the admin-gated
POST /admin/users — either was already in the store or has the admin flag
false and the active flag true: no HTTP request through a create path can
create an admin account, for any store, body, validator or hasher. -/
theorem http_create_never_grants_admin (validate : UserCreateRequest → Option String)
    (hash : String → Except String String) (s : Store) (body : Option UserCreateRequest) :
    ∀ u, u ∈ (UserHandler.Create validate hash s body).2.users →
      u ∈ s.users ∨ (u.isAdmin = false ∧ u.isActive = true) := by
  intro u hu
  unfold UserHandler.Create at hu
  cases body with
  | none => exact .inl hu
  | some req =>
    cases hv : validate req with
    | some verr =>
      simp only [hv] at hu
      exact .inl hu
    | none =>
      simp only [hv] at hu
      rcases hcr : userService.Create hash s req with ⟨res, s1⟩
      have hs1 : (userService.Create hash s req).2 = s1 := by rw [hcr]
      simp only [hcr] at hu
      cases res with
      | error e =>
        refine create_service_growth hash s req u ?_
        rw [hs1]
        exact hu
      | ok r =>
        refine create_service_growth hash s req u ?_
        rw [hs1]
        exact hu

/-- The account the create handler adds for reqBob on the empty store. -/
def bobCreated : User :=
  { id := 1, email := "bob@example.com", username := "bob", password := "hashed:pw2"
    firstName := "Bob", lastName := "Jones", isActive := true, isAdmin := false
    lastLogin := none, deleted := false }

/-- Closed instance: the row the create handler adds on the empty store is
not a pre-existing row, so the invariant pins its flags: admin false,
active true. -/
theorem http_create_never_grants_admin_witness :
    bobCreated ∈ baseStore.users ∨ (bobCreated.isAdmin = false ∧ bobCreated.isActive = true) := by
  exact http_create_never_grants_admin vOK hash0 baseStore (some reqBob) bobCreated (by decide)
